import Mathlib

/-!
Shallow embedding of the portfolio page's UI state machine and its pure logic,
translated from the TypeScript source:
  * `src/app/page.tsx` — page-level coordinator (`Home`): selected note,
    selected diagram, case-study flag, and `handleDownloadDiagram`;
  * `src/app/components/SystemDiagram.tsx` — pure diagram renderer;
  * `src/app/components/ThemeToggle.tsx` — theme toggle and its mount effect;
  * `src/app/components/Modal.tsx` — reusable modal with Escape-key listener.
-/

namespace Portfolio

/-- `DiagramType` from `page.tsx` lines 15–22 (same closed union in
`SystemDiagram.tsx` line 7). -/
inductive DiagramType where
  | cache
  | microservices
  | cli
  | logs
  | auth
  | pydown
  | default
deriving DecidableEq

/-- Sticky-note colors allowed by `NoteData` (`page.tsx` line 30). -/
inductive NoteColor where
  | yellow
  | blue
  | pink
  | green
deriving DecidableEq

/-- `NoteData` from `page.tsx` lines 28–34.  The `content` field is a React
node (opaque display markup) and plays no role in any state transition, so it
is not carried here; selection is by the whole record, as in the source. -/
structure NoteData where
  id : String
  color : NoteColor
  rotation : String
  title : Option String
deriving DecidableEq

/-- The descriptor stored in `selectedProjectDiagram` (`page.tsx`
lines 51–55). -/
structure SelectedDiagram where
  title : String
  type : DiagramType
  imageSrc : Option String
deriving DecidableEq

/-- The three `useState` fields owned by `Home` (`page.tsx` lines 46–58). -/
structure CoordState where
  selectedNote : Option NoteData
  selectedProjectDiagram : Option SelectedDiagram
  isCaseStudyOpen : Bool
deriving DecidableEq

/-- The state `Home` starts in: `useState(null)`, `useState(null)`,
`useState(false)`. -/
def initialState : CoordState :=
  { selectedNote := none, selectedProjectDiagram := none, isCaseStudyOpen := false }

/-- `setSelectedNote(note)` as fired by clicking a sticky note
(`page.tsx` lines 250, 356). -/
def selectNote (n : NoteData) (st : CoordState) : CoordState :=
  { st with selectedNote := some n }

/-- `setSelectedNote(null)` as fired by the overlay backdrop / close button
(`page.tsx` lines 383, 392). -/
def closeNote (st : CoordState) : CoordState :=
  { st with selectedNote := none }

/-- `setSelectedProjectDiagram(descriptor)` as fired by a project card's
architecture button (`page.tsx` lines 287–293, 300–306, 337–342). -/
def selectDiagram (d : SelectedDiagram) (st : CoordState) : CoordState :=
  { st with selectedProjectDiagram := some d }

/-- `setSelectedProjectDiagram(null)` (`page.tsx` lines 432, 478). -/
def closeDiagram (st : CoordState) : CoordState :=
  { st with selectedProjectDiagram := none }

/-- `setIsCaseStudyOpen(true)` from the manila folder (`page.tsx` line 265). -/
def openDocument (st : CoordState) : CoordState :=
  { st with isCaseStudyOpen := true }

/-- `setIsCaseStudyOpen(false)` from the case-study modal's `onClose`
(`page.tsx` line 527). -/
def closeDocument (st : CoordState) : CoordState :=
  { st with isCaseStudyOpen := false }

/-- The note overlay is rendered iff `selectedNote` is non-null
(`page.tsx` line 379: `{selectedNote && (...)}`). -/
def noteOverlayVisible (st : CoordState) : Bool :=
  st.selectedNote.isSome

/-- The diagram overlay is rendered iff `selectedProjectDiagram` is non-null
(`page.tsx` line 428). -/
def diagramOverlayVisible (st : CoordState) : Bool :=
  st.selectedProjectDiagram.isSome

/-- Whitespace as matched by the JavaScript regex class `\s` (ASCII part;
all titles in the source are ASCII). -/
def jsIsWs (c : Char) : Bool :=
  c = ' ' || c = '\t' || c = '\n' || c = '\r' || c = '\x0b' || c = '\x0c'

/-- `replace(/\s+/g, "-")` on a character list: each maximal run of
whitespace becomes a single hyphen.  The boolean argument records whether the
previous character was part of a whitespace run. -/
def collapseWsAux : Bool → List Char → List Char
  | _, [] => []
  | prevWs, c :: rest =>
    if jsIsWs c then
      if prevWs then collapseWsAux true rest
      else '-' :: collapseWsAux true rest
    else
      c :: collapseWsAux false rest

/-- `title.toLowerCase().replace(/\s+/g, "-")` from `page.tsx` line 68. -/
def slugify (s : String) : String :=
  ⟨collapseWsAux false (s.data.map Char.toLower)⟩

/-- One child element of the rendered diagram SVG, mirroring the helper
components of `SystemDiagram.tsx`: `Box` (lines 56–77) carries position, size,
a label and an optional sub-label; `Arrow` (lines 82–92) carries its path
data; `Database` (lines 103–115) carries position and label; `textEl` is a
bare `<text>` node with its coordinates, anchor, class string and content;
`diamond` is the decision-diamond group of the pydown case (lines 225–228). -/
inductive SvgElem where
  | textEl (x y anchor cls content : String)
  | box (x y width height : Nat) (label : String) (sub : Option String)
  | arrow (d : String)
  | database (x y : Nat) (label : String)
  | diamond (tx ty : Nat) (label : String)
deriving DecidableEq

/-- `renderDiagram` from `SystemDiagram.tsx` lines 126–311: the switch over
the diagram type, producing the ordered children of the outer `<svg>` (which
additionally always holds the constant `RoughFilter` defs, lines 313–321). -/
def renderDiagram : DiagramType → List SvgElem
  | .cache =>
    [ .textEl "50%" "20" "middle" "font-handwriting text-xl fill-current" "Read-Through Cache Pattern",
      .box 50 100 80 50 "Client" none,
      .box 180 100 40 150 "LB" none,
      .box 270 60 80 40 "API 1" none,
      .box 270 125 80 40 "API 2" none,
      .box 270 190 80 40 "API 3" none,
      .box 400 60 60 170 "Redis" (some "Cluster"),
      .database 520 110 "Postgres",
      .arrow "M130,125 L180,125",
      .arrow "M220,120 L270,80",
      .arrow "M220,130 L270,145",
      .arrow "M220,140 L270,210",
      .arrow "M350,80 L400,100",
      .arrow "M350,145 L400,145",
      .arrow "M350,210 L400,190",
      .arrow "M460,145 L520,135" ]
  | .microservices =>
    [ .textEl "50%" "20" "middle" "font-handwriting text-xl fill-current" "Event-Driven Architecture",
      .box 20 100 70 40 "Order" (some "Service"),
      .box 140 80 80 80 "RabbitMQ" (some "Exchange"),
      .box 280 40 80 40 "Inventory" (some "Service"),
      .box 280 100 80 40 "Payment" (some "Service"),
      .box 280 160 80 40 "Notif." (some "Service"),
      .database 400 30 "Inv DB",
      .database 400 150 "User DB",
      .arrow "M90,120 L140,120",
      .arrow "M220,100 L280,60",
      .arrow "M220,120 L280,120",
      .arrow "M220,140 L280,180",
      .arrow "M360,60 L400,50" ]
  | .cli =>
    [ .textEl "50%" "20" "middle" "font-handwriting text-xl fill-current" "Local-First Sync Architecture",
      .box 50 100 80 50 "TUI" (some "Interface"),
      .box 200 80 100 90 "Core Logic" (some "Rust"),
      .database 380 60 "SQLite",
      .box 380 150 60 40 "Git" (some "Process"),
      .box 500 140 60 60 "Remote" (some "Repo"),
      .arrow "M130,125 L200,125",
      .arrow "M300,100 L380,80",
      .arrow "M300,150 L380,170",
      .arrow "M440,170 L500,170" ]
  | .pydown =>
    [ .textEl "50%" "20" "middle" "font-handwriting text-xl fill-current" "PyDown CLI Architecture",
      .box 10 100 60 50 "User" (some "Terminal"),
      .box 100 90 80 70 "PyDown" (some "Orchestrator"),
      .box 100 20 80 40 "FZF" (some "Interactive UI"),
      .box 240 90 80 70 "YT-DLP" (some "Core Engine"),
      .box 400 20 80 50 "YouTube" (some "CDN / API"),
      .diamond 400 105 "Mode",
      .box 500 80 70 40 "MPV/VLC" (some "Player"),
      .database 510 160 "Disk",
      .arrow "M70,125 L100,125",
      .arrow "M140,90 L140,60",
      .arrow "M140,60 L140,90",
      .textEl "145" "80" "" "text-[9px] font-mono fill-current opacity-60" "Selection",
      .arrow "M180,125 L240,125",
      .textEl "210" "120" "middle" "text-[9px] font-mono fill-current opacity-60" "Exec Params",
      .arrow "M280,90 L320,50 L400,50",
      .textEl "340" "45" "middle" "text-[9px] font-mono fill-current opacity-60" "Request",
      .arrow "M440,70 L440,100 L320,100",
      .textEl "380" "95" "middle" "text-[9px] font-mono fill-current opacity-60" "Stream Data",
      .arrow "M320,125 L400,125",
      .arrow "M420,105 L460,100 L500,100",
      .textEl "460" "95" "middle" "text-[9px] font-mono fill-current opacity-60" "Pipe (Stdout)",
      .arrow "M420,145 L460,170 L510,170",
      .textEl "450" "165" "middle" "text-[9px] font-mono fill-current opacity-60" "Write File",
      .textEl "450" "175" "middle" "text-[8px] font-sans fill-current opacity-50" "(Fmt + Subs)" ]
  | .logs =>
    [ .textEl "50%" "20" "middle" "font-handwriting text-xl fill-current" "Async Log Ingestion Flow",
      .box 20 100 70 50 "Apps" (some "Log Sources"),
      .box 130 80 100 90 "Kafka" (some "Message Bus"),
      .box 270 80 100 90 "Elixir" (some "Ingestor"),
      .database 420 90 "Elastic",
      .box 530 100 60 50 "Search" (some "API"),
      .arrow "M90,125 L130,125",
      .arrow "M230,125 L270,125",
      .arrow "M370,125 L420,125",
      .arrow "M480,125 L530,125" ]
  | .auth =>
    [ .textEl "50%" "20" "middle" "font-handwriting text-xl fill-current" "Identity & Auth Flow",
      .box 30 100 70 50 "User" (some "Client"),
      .box 150 80 120 100 "Go Auth" (some "Service"),
      .database 330 60 "Redis",
      .box 450 100 100 60 "OAuth" (some "Github/Google"),
      .arrow "M100,125 L150,125",
      .arrow "M270,100 L330,85",
      .arrow "M270,140 L450,140",
      .textEl "360" "145" "middle" "text-[9px] font-mono fill-current opacity-60" "Redirect/Callback" ]
  | .default =>
    [ .textEl "50%" "50%" "middle" "font-mono text-sm fill-current opacity-50"
        "[System Diagram Not Available]" ]

/-- What `handleDownloadDiagram` hands to the anchor element: either the
static image path used directly as `link.href` (`page.tsx` lines 71–76), or
the serialized clone of the `<svg>` found in the live view, wrapped in a blob
(`page.tsx` lines 82–95).  The `svgDrawing` payload records the drawing the
serialized clone contains. -/
inductive DownloadContent where
  | path (src : String)
  | svgDrawing (elems : List SvgElem)
deriving DecidableEq

/-- A triggered download: the `download` attribute (filename) and what the
`href` resolves to. -/
structure Download where
  filename : String
  content : DownloadContent
deriving DecidableEq

/-- `handleDownloadDiagram` from `page.tsx` lines 65–98, as a pure function
of the `selectedProjectDiagram` state and of the result of the DOM query
`document.getElementById("architecture-diagram-container")?.querySelector("svg")`
(the second argument).  Returns the triggered download, or `none` when the
handler falls through without clicking a link. -/
def handleDownloadDiagram (diag : Option SelectedDiagram)
    (domSvg : Option (List SvgElem)) : Option Download :=
  match diag with
  | none => none
  | some d =>
    let title := slugify d.title
    match d.imageSrc with
    | some src => some { filename := title ++ ".svg", content := .path src }
    | none =>
      match domSvg with
      | some elems => some { filename := title ++ ".svg", content := .svgDrawing elems }
      | none => none

/-- The `<svg>` that the DOM query of `handleDownloadDiagram` finds inside
`architecture-diagram-container`, per the modal's markup (`page.tsx`
lines 428–511): the container exists only while `selectedProjectDiagram` is
non-null; it holds an `<img>` when `imageSrc` is set and `SystemDiagram`
(whose outermost element is an `<svg>`, `SystemDiagram.tsx` lines 313–321)
otherwise. -/
def renderedModalSvg (diag : Option SelectedDiagram) : Option (List SvgElem) :=
  match diag with
  | none => none
  | some d =>
    match d.imageSrc with
    | some _ => none
    | none => some (renderDiagram d.type)

/-- `exportActiveDiagram`: clicking the download button (`page.tsx`
line 457) runs `handleDownloadDiagram` against the current state and the
live view.  The handler calls no state setter, so the coordinator state it
returns is the input state; the second component is the download it
triggers, if any. -/
def exportActiveDiagram (st : CoordState) : CoordState × Option Download :=
  (st, handleDownloadDiagram st.selectedProjectDiagram
        (renderedModalSvg st.selectedProjectDiagram))

/-- The `"intro"` note of `NOTES_DATA` (`page.tsx` lines 105–123). -/
def introNote : NoteData :=
  { id := "intro", color := .yellow, rotation := "-rotate-2",
    title := some "Hi, I\x27m Erick!" }

/-- The `"stack"` note of `NOTES_DATA` (`page.tsx` lines 124–138). -/
def stackNote : NoteData :=
  { id := "stack", color := .blue, rotation := "rotate-1",
    title := some "Tech Stack" }

/-- The `"goals"` note of `NOTES_DATA` (`page.tsx` lines 139–151). -/
def goalsNote : NoteData :=
  { id := "goals", color := .pink, rotation := "-rotate-3",
    title := some "Current Focus" }

/-- `CONTACT_NOTE` (`page.tsx` lines 158–203). -/
def contactNote : NoteData :=
  { id := "contact", color := .green, rotation := "rotate-2",
    title := some "Communication Channels" }

/-- The descriptor passed by the Auth Service card (`page.tsx`
lines 337–342): no `imageSrc`. -/
def authDiagram : SelectedDiagram :=
  { title := "Auth Service Architecture", type := .auth, imageSrc := none }

/-- The descriptor passed by the PyDown card (`page.tsx` lines 287–293):
static image path `/diagrams/pydown.png`. -/
def pydownDiagram : SelectedDiagram :=
  { title := "PyDown Architecture", type := .pydown,
    imageSrc := some "/diagrams/pydown.png" }

/-- The theme-relevant state touched by `toggleTheme`
(`ThemeToggle.tsx` lines 34–44): the React `isDark` flag, the persisted
`localStorage` entry under key `"theme"` (`none` when nothing is persisted),
and whether `<html>` carries the `dark` class. -/
structure ThemeState where
  isDark : Bool
  storedTheme : Option String
  domDark : Bool
deriving DecidableEq

/-- `toggleTheme` from `ThemeToggle.tsx` lines 34–44: branch on `isDark`,
add/remove the `dark` class, write `"light"`/`"dark"` to storage, flip the
flag. -/
def toggleTheme (st : ThemeState) : ThemeState :=
  if st.isDark then
    { isDark := false, storedTheme := some "light", domDark := false }
  else
    { isDark := true, storedTheme := some "dark", domDark := true }

/-- Events the mounted `ThemeToggle` can observe: the environment firing the
scheduled animation frame, or React tearing the component down (running the
effect cleanup, `ThemeToggle.tsx` line 28). -/
inductive MountEvent where
  | frame
  | unmount
deriving DecidableEq

/-- The state of `ThemeToggle`'s mount effect (`ThemeToggle.tsx`
lines 20–29): whether the `requestAnimationFrame` callback is still
scheduled, and the `mounted` / `isDark` React state the callback sets. -/
structure ToggleMountState where
  pendingFrame : Bool
  mounted : Bool
  isDark : Bool
deriving DecidableEq

/-- State right after the initial render and effect run (`useState(false)`
twice, then `requestAnimationFrame(...)` schedules the callback). -/
def mountThemeToggle : ToggleMountState :=
  { pendingFrame := true, mounted := false, isDark := false }

/-- One event step.  A frame fires the callback only if it is still
scheduled: `setMounted(true)`, then `setIsDark(true)` iff `<html>` carries
the `dark` class (`domDark`).  Unmounting runs the cleanup
`cancelAnimationFrame(frame)`, descheduling the callback. -/
def stepMount (domDark : Bool) (st : ToggleMountState) : MountEvent → ToggleMountState
  | .frame =>
    if st.pendingFrame then
      { pendingFrame := false, mounted := true, isDark := st.isDark || domDark }
    else st
  | .unmount => { st with pendingFrame := false }

/-- Run a sequence of mount events. -/
def runMount (domDark : Bool) (st : ToggleMountState) (evs : List MountEvent) :
    ToggleMountState :=
  evs.foldl (stepMount domDark) st

/-- Whether `Modal`'s Escape listener is currently registered.  The
registering effect (`Modal.tsx` lines 12–18) has dependency array
`[onClose]` and sits before the `if (!isOpen) return null` guard, so the
listener is held for the whole mount and does not consult `isOpen`. -/
def modalEscListenerActive (mounted : Bool) (_isOpen : Bool) : Bool :=
  mounted

/-- `handleEsc` (`Modal.tsx` lines 13–15): whether a keydown with this key
invokes `onClose`. -/
def modalHandleEsc (key : String) : Bool :=
  key == "Escape"

/-- Whether a keydown reaching the window invokes the modal's `onClose`:
the listener must be registered and the key must be Escape. -/
def modalOnCloseInvoked (mounted isOpen : Bool) (key : String) : Bool :=
  modalEscListenerActive mounted isOpen && modalHandleEsc key

/-- `Modal.tsx` line 20: the modal renders content iff `isOpen`. -/
def modalRendersContent (isOpen : Bool) : Bool :=
  isOpen

/-! Helper lemmas about the mount-event semantics (shared infrastructure, not
tied to a single claim). -/

/-- Once the frame callback is descheduled and has not run, no further event
sequence can run it: `mounted` stays false and the callback stays
descheduled. -/
theorem runMount_descheduled (domDark : Bool) (evs : List MountEvent)
    (st : ToggleMountState) (hp : st.pendingFrame = false)
    (hm : st.mounted = false) :
    (runMount domDark st evs).mounted = false ∧
    (runMount domDark st evs).pendingFrame = false := by
  induction evs generalizing st with
  | nil => exact ⟨hm, hp⟩
  | cons e rest ih =>
    cases e with
    | frame =>
      have hstep : stepMount domDark st .frame = st := by
        simp [stepMount, hp]
      simpa [runMount, hstep] using ih st hp hm
    | unmount =>
      have : (stepMount domDark st .unmount).pendingFrame = false := rfl
      simpa [runMount] using ih (stepMount domDark st .unmount) this hm

/-- As long as no frame fires, the callback has not run: `mounted` stays
false across any frame-free event sequence. -/
theorem runMount_noframe_mounted (domDark : Bool) (pre : List MountEvent)
    (st : ToggleMountState) (h : MountEvent.frame ∉ pre)
    (hm : st.mounted = false) :
    (runMount domDark st pre).mounted = false := by
  induction pre generalizing st with
  | nil => exact hm
  | cons e rest ih =>
    cases e with
    | frame => exact absurd (List.mem_cons_self _ _) h
    | unmount =>
      have hrest : MountEvent.frame ∉ rest := fun hr => h (List.mem_cons_of_mem _ hr)
      simpa [runMount] using ih (stepMount domDark st .unmount) hrest hm

/-- C1: for every active diagram, `exportActiveDiagram` names the download
by lowercasing the title, collapsing each whitespace run to a hyphen, and
appending `.svg`; selecting the Auth Service diagram (title
"Auth Service Architecture", no static image path) and exporting downloads
`auth-service-architecture.svg` containing the serialized "auth" drawing. -/
theorem export_filename_spec (st : CoordState) (d : SelectedDiagram)
    (out : Download) (hd : st.selectedProjectDiagram = some d)
    (hout : (exportActiveDiagram st).2 = some out) :
    out.filename = slugify d.title ++ ".svg" ∧
    (exportActiveDiagram (selectDiagram authDiagram initialState)).2 =
      some { filename := "auth-service-architecture.svg",
             content := .svgDrawing (renderDiagram .auth) } := by
  constructor
  · have h2 : handleDownloadDiagram (some d) (renderedModalSvg (some d)) = some out := by
      simpa [exportActiveDiagram, hd] using hout
    cases hsrc : d.imageSrc with
    | some src =>
      simp [handleDownloadDiagram, hsrc] at h2
      simp [← h2]
    | none =>
      simp [handleDownloadDiagram, renderedModalSvg, hsrc] at h2
      simp [← h2]
  · decide

/-- C1 witness: the theorem applied to the concrete Auth Service export. -/
theorem export_filename_spec_witness :
    ({ filename := "auth-service-architecture.svg",
       content := .svgDrawing (renderDiagram .auth) } : Download).filename =
      slugify authDiagram.title ++ ".svg" ∧
    (exportActiveDiagram (selectDiagram authDiagram initialState)).2 =
      some { filename := "auth-service-architecture.svg",
             content := .svgDrawing (renderDiagram .auth) } :=
  export_filename_spec (selectDiagram authDiagram initialState) authDiagram
    { filename := "auth-service-architecture.svg",
      content := .svgDrawing (renderDiagram .auth) }
    rfl (by decide)

/-- C2: the export handler triggers no download and raises nothing when no
diagram is active, or when the active diagram has no static image path and
the DOM query finds no `<svg>`; it is a total function returning `none` in
those cases. -/
theorem export_silent_noop (diag : Option SelectedDiagram)
    (domSvg : Option (List SvgElem))
    (h : diag = none ∨ ∃ d, diag = some d ∧ d.imageSrc = none ∧ domSvg = none) :
    handleDownloadDiagram diag domSvg = none := by
  rcases h with h | ⟨d, hd, hsrc, hdom⟩
  · simp [handleDownloadDiagram, h]
  · subst hd; subst hdom
    simp [handleDownloadDiagram, hsrc]

/-- C2 witness: the theorem applied with no active diagram. -/
theorem export_silent_noop_witness :
    handleDownloadDiagram none none = none :=
  export_silent_noop none none (Or.inl rfl)

/-- C3: exporting never changes any of the three coordinator state fields:
the state component returned by `exportActiveDiagram` is the input state,
whether or not a download was produced. -/
theorem export_preserves_coordinator_state (st : CoordState) :
    (exportActiveDiagram st).1 = st :=
  rfl

/-- C4 counterexample: with the "intro" note already open, note-overlay
visibility is `true` before `selectNote`/`closeNote` and `false` after, so
the pair does not restore the prior visibility for every prior state. -/
theorem selectNote_closeNote_visibility_cx :
    noteOverlayVisible (closeNote (selectNote stackNote
        { selectedNote := some introNote, selectedProjectDiagram := none,
          isCaseStudyOpen := false })) ≠
      noteOverlayVisible
        { selectedNote := some introNote, selectedProjectDiagram := none,
          isCaseStudyOpen := false } := by
  decide

/-- C4 amended: for every predefined note and every prior state in which no
note overlay is open, `selectNote` followed by `closeNote` returns the
note-overlay visibility to its prior value. -/
theorem selectNote_closeNote_visibility_amended (n : NoteData) (st : CoordState)
    (h : st.selectedNote = none) :
    noteOverlayVisible (closeNote (selectNote n st)) = noteOverlayVisible st := by
  simp [noteOverlayVisible, closeNote, selectNote, h]

/-- C4 witness: the amended theorem applied at the intro note and the
initial state. -/
theorem selectNote_closeNote_visibility_amended_witness :
    noteOverlayVisible (closeNote (selectNote introNote initialState)) =
      noteOverlayVisible initialState :=
  selectNote_closeNote_visibility_amended introNote initialState rfl

/-- C5 counterexample: starting from the state with nothing persisted (and
dark off), two toggles leave `some "light"` in storage, not the original
`none`, so the persisted value is not restored in the unpersisted case. -/
theorem theme_toggle_storage_cx :
    (toggleTheme (toggleTheme
        { isDark := false, storedTheme := none, domDark := false })).storedTheme ≠
      ({ isDark := false, storedTheme := none, domDark := false } :
        ThemeState).storedTheme := by
  decide

/-- C5 amended: two toggles always restore the in-memory flag (and leave the
global style flag equal to it), and leave the persisted value equal to the
value matching that flag — so the persisted value is restored exactly when
it already held the matching value, and a value becomes persisted when none
was. -/
theorem theme_toggle_involution_amended (st : ThemeState) :
    (toggleTheme (toggleTheme st)).isDark = st.isDark ∧
    (toggleTheme (toggleTheme st)).domDark = st.isDark ∧
    (toggleTheme (toggleTheme st)).storedTheme =
      some (if st.isDark then "dark" else "light") := by
  obtain ⟨d, s, m⟩ := st
  cases d <;> simp [toggleTheme]

/-- C6: every identifier of the closed enumeration (the six real diagram
types) renders a non-empty drawing distinct from the placeholder, and the
out-of-enumeration (`default`) identifier renders exactly the
"not available" placeholder; the renderer is a function, so each identifier
has exactly one fixed layout. -/
theorem renderDiagram_enumeration_spec :
    (∀ t : DiagramType, (renderDiagram t).length > 0) ∧
    renderDiagram .default =
      [ .textEl "50%" "50%" "middle" "font-mono text-sm fill-current opacity-50"
          "[System Diagram Not Available]" ] ∧
    (∀ t : DiagramType, t = .default ∨ renderDiagram t ≠ renderDiagram .default) := by
  refine ⟨?_, rfl, ?_⟩
  · intro t; cases t <;> decide
  · intro t
    cases t <;> first
      | exact Or.inl rfl
      | exact Or.inr (by decide)

/-- C7: the three overlay flags are mutually independent: `selectNote`,
`selectDiagram` and `openDocument` each leave the other two fields
untouched, and opening the document overlay while a note overlay is open
leaves both visibility flags simultaneously true. -/
theorem overlays_independent (st : CoordState) (n : NoteData)
    (d : SelectedDiagram) :
    ((selectNote n st).selectedProjectDiagram = st.selectedProjectDiagram ∧
      (selectNote n st).isCaseStudyOpen = st.isCaseStudyOpen) ∧
    ((selectDiagram d st).selectedNote = st.selectedNote ∧
      (selectDiagram d st).isCaseStudyOpen = st.isCaseStudyOpen) ∧
    ((openDocument st).selectedNote = st.selectedNote ∧
      (openDocument st).selectedProjectDiagram = st.selectedProjectDiagram) ∧
    (noteOverlayVisible (openDocument (selectNote n st)) = true ∧
      (openDocument (selectNote n st)).isCaseStudyOpen = true) := by
  exact ⟨⟨rfl, rfl⟩, ⟨rfl, rfl⟩, ⟨rfl, rfl⟩, rfl, rfl⟩

/-- C8: the deferred theme-detection callback is scheduled (next-frame) right
after the initial render, and if the component is torn down before any frame
fires, the callback is cancelled and never runs (`mounted` never becomes
true), no matter what events follow. -/
theorem theme_detection_frame_cancelled (domDark : Bool)
    (pre post : List MountEvent) (h : MountEvent.frame ∉ pre) :
    mountThemeToggle.pendingFrame = true ∧
    (runMount domDark mountThemeToggle
        (pre ++ MountEvent.unmount :: post)).mounted = false := by
  refine ⟨rfl, ?_⟩
  have hmid : (runMount domDark mountThemeToggle pre).mounted = false :=
    runMount_noframe_mounted domDark pre mountThemeToggle h rfl
  have hsplit : runMount domDark mountThemeToggle (pre ++ MountEvent.unmount :: post) =
      runMount domDark
        (stepMount domDark (runMount domDark mountThemeToggle pre) .unmount) post := by
    simp [runMount, List.foldl_append]
  rw [hsplit]
  exact (runMount_descheduled domDark post
    (stepMount domDark (runMount domDark mountThemeToggle pre) .unmount)
    rfl hmid).1

/-- C8 witness: the theorem applied with teardown immediately before the
first frame. -/
theorem theme_detection_frame_cancelled_witness :
    mountThemeToggle.pendingFrame = true ∧
    (runMount true mountThemeToggle
        ([] ++ MountEvent.unmount :: [MountEvent.frame])).mounted = false :=
  theme_detection_frame_cancelled true [] [MountEvent.frame] (by decide)

/-- C9: every export of a diagram with a static image path is downloaded
under a filename ending in `.svg` regardless of the path's own extension;
in particular the PyDown diagram's `/diagrams/pydown.png` is downloaded as
`pydown-architecture.svg`, so the name's extension can differ from the
file's actual format. -/
theorem export_extension_always_svg (st : CoordState) (d : SelectedDiagram)
    (out : Download) (hd : st.selectedProjectDiagram = some d)
    (hsrc : d.imageSrc.isSome = true)
    (hout : (exportActiveDiagram st).2 = some out) :
    (∃ stem, out.filename = stem ++ ".svg") ∧
    (exportActiveDiagram (selectDiagram pydownDiagram initialState)).2 =
      some { filename := "pydown-architecture.svg",
             content := .path "/diagrams/pydown.png" } := by
  constructor
  · refine ⟨slugify d.title, ?_⟩
    have h2 : handleDownloadDiagram (some d) (renderedModalSvg (some d)) = some out := by
      simpa [exportActiveDiagram, hd] using hout
    obtain ⟨src, hsome⟩ := Option.isSome_iff_exists.mp hsrc
    simp [handleDownloadDiagram, hsome] at h2
    simp [← h2]
  · decide

/-- C9 witness: the theorem applied to the concrete PyDown export. -/
theorem export_extension_always_svg_witness :
    (∃ stem,
      ({ filename := "pydown-architecture.svg",
         content := .path "/diagrams/pydown.png" } : Download).filename =
        stem ++ ".svg") ∧
    (exportActiveDiagram (selectDiagram pydownDiagram initialState)).2 =
      some { filename := "pydown-architecture.svg",
             content := .path "/diagrams/pydown.png" } :=
  export_extension_always_svg (selectDiagram pydownDiagram initialState)
    pydownDiagram
    { filename := "pydown-architecture.svg",
      content := .path "/diagrams/pydown.png" }
    rfl rfl (by decide)

/-- C10: the modal's Escape listener is registered for the whole mount,
independent of `isOpen`; a keydown of "Escape" invokes `onClose` even while
the modal is closed and rendering nothing. -/
theorem modal_escape_while_closed :
    (∀ isOpen : Bool, modalEscListenerActive true isOpen = true) ∧
    (∀ isOpen : Bool, modalOnCloseInvoked true isOpen "Escape" = true) ∧
    modalRendersContent false = false := by
  refine ⟨fun _ => rfl, ?_, rfl⟩
  intro isOpen
  simp [modalOnCloseInvoked, modalEscListenerActive, modalHandleEsc]

end Portfolio
